import Mathlib

/-!
Verification of the octree pad/depad operators
(`src/tensorflow/libs/octree_pad_op.cc`).

The file embeds the data model and the two transforms in Lean:

* A feature tensor is a channel count together with a list of per-node
  feature vectors (the node axis); the value type is an arbitrary type
  with a zero element, since both transforms only copy values and
  zero-fill, never compute with them.
* The children index of a depth level is a list of machine integers,
  one per dense node slot; a negative entry is the sentinel marking an
  empty node, a non-negative entry is the node's rank among the
  non-empty nodes (the compact slot it maps to).
* The octree topology queries used by the kernels (`node_num`,
  `node_num_nempty`, `children`) are an abstract structure, since the
  octree parser is an external collaborator of this file.

The op kernels `OctreePadOp::Compute` and `OctreeDepadOp::Compute` are
embedded as functions returning `Except`: the `CHECK_EQ` shape guards,
which abort the call fatally before the output tensor is allocated,
become the `ShapeMismatch` error branch, and the `CHECK_GE(depth_, 1)`
guard in the `OctreePadBase` constructor becomes the `ConfigError`
branch of the construction function.
-/

namespace OCNN

/-- A per-node feature tensor: shape `[batch = 1, channel, node]`.
`channel` is the channel-axis length (`dim_size(1)`), `slots` the list
of per-node feature vectors along the node axis (`dim_size(2)`). -/
structure FeatureTensor (α : Type) where
  channel : Nat
  slots : List (List α)
  deriving DecidableEq, Repr

/-- Node-axis length of a feature tensor (`dim_size(2)`). -/
def FeatureTensor.height {α : Type} (t : FeatureTensor α) : Nat :=
  t.slots.length

/-- The octree topology queries the pad/depad kernels consume, per
depth: total node count `node_num d`, non-empty node count
`node_num_nempty d`, and the children index array `children d`
(one entry per dense node; negative = empty sentinel). -/
structure OctreeTopology where
  node_num : Int → Nat
  node_num_nempty : Int → Nat
  children : Int → List Int

/-- Errors of the embedded operators: `ShapeMismatch` for the fatal
`CHECK_EQ` shape guards in `Compute`, `ConfigError` for the fatal
`CHECK_GE(depth_, 1)` guard in the `OctreePadBase` constructor. -/
inductive OpError where
  | ShapeMismatch
  | ConfigError
  deriving DecidableEq, Repr

/-- Modelled from the spec: the scatter kernel `pad_forward_gpu`
(declared in `octree_util.h`, defined outside this file's sources;
called at `octree_pad_op.cc:83-84`).  For every dense slot `i` of the
`top_h`-long output: if `children[i]` is the sentinel (negative), the
output slot is all zeros across `channel` channels; otherwise it is the
compact input slot `children[i]`, copied channel-for-channel. -/
def pad_forward {α : Type} [Zero α] (top_h channel : Nat)
    (btm : List (List α)) (children : List Int) : List (List α) :=
  (List.range top_h).map (fun i =>
    let t := children.getD i (-1)
    if t < 0 then List.replicate channel 0
    else btm.getD t.toNat (List.replicate channel 0))

/-- Modelled from the spec: the gather kernel `pad_backward_gpu`
(declared in `octree_util.h`, defined outside this file's sources;
called at `octree_pad_op.cc:118-119`).  For every compact slot `k` of
the `btm_h`-long output: the feature vector of the dense slot `i` with
`children[i] == k` (unique by the bijection invariant). -/
def pad_backward {α : Type} (btm_h : Nat)
    (top : List (List α)) (children : List Int) : List (List α) :=
  (List.range btm_h).map (fun (k : Nat) =>
    top.getD (children.findIdx (fun t => decide (t = (k : Int)))) [])

/-- The operator state built by the `OctreePadBase` constructor: the
`depth` attribute, stored in `depth_`. -/
structure OctreePadBase where
  depth_ : Int
  deriving DecidableEq, Repr

/-- The `OctreePadBase` constructor (`octree_pad_op.cc:37-41`): reads
the `depth` attribute and fatally rejects it via `CHECK_GE(depth_, 1)`
unless `depth ≥ 1`, before any `Compute` call can execute. -/
def OctreePadBase.construct (depth : Int) : Except OpError OctreePadBase :=
  if 1 ≤ depth then .ok ⟨depth⟩ else .error .ConfigError

/-- `OctreePadOp::Compute` (`octree_pad_op.cc:59-85`): checks
`CHECK_EQ(node_num_nempty(depth), btm_h)` (fatal, before the output is
allocated), then allocates the output with the node axis set to
`node_num(depth)` and runs `pad_forward_gpu`. -/
def OctreePadOp_compute {α : Type} [Zero α] (octree : OctreeTopology)
    (depth : Int) (btm_data : FeatureTensor α) :
    Except OpError (FeatureTensor α) :=
  let channel := btm_data.channel
  let btm_h := btm_data.height
  if octree.node_num_nempty depth = btm_h then
    let top_h := octree.node_num depth
    .ok ⟨channel,
         pad_forward top_h channel btm_data.slots (octree.children depth)⟩
  else .error .ShapeMismatch

/-- `OctreeDepadOp::Compute` (`octree_pad_op.cc:94-120`): checks
`CHECK_EQ(node_num(depth), top_h)` (fatal, before the output is
allocated), then allocates the output with the node axis set to
`node_num_nempty(depth)` and runs `pad_backward_gpu`. -/
def OctreeDepadOp_compute {α : Type} (octree : OctreeTopology)
    (depth : Int) (top_data : FeatureTensor α) :
    Except OpError (FeatureTensor α) :=
  let channel := top_data.channel
  let top_h := top_data.height
  if octree.node_num depth = top_h then
    let btm_h := octree.node_num_nempty depth
    .ok ⟨channel,
         pad_backward btm_h top_data.slots (octree.children depth)⟩
  else .error .ShapeMismatch

/-- A tensor shape for shape inference: one entry per dimension,
`none` marking an unknown dimension. -/
abbrev ShapeHandle : Type := List (Option Nat)

/-- `InferenceContext::ReplaceDim`: replace dimension `i` of a shape of
known rank, failing when `i` is out of range. -/
def replaceDim (s : ShapeHandle) (i : Nat) (v : Option Nat) :
    Option ShapeHandle :=
  if i < s.length then some (s.set i v) else none

/-- The shared shape-inference function `pad_shape_fun`
(`octree_pad_op.cc:11-16`): the output shape is the first input's
shape with dimension 2 replaced by an unknown dimension. -/
def pad_shape_fun (input0 : ShapeHandle) : Option ShapeHandle :=
  replaceDim input0 2 none

/-- An op registration, reduced to the part the claims mention: the
shape-inference function installed by `SetShapeFn`. -/
structure OpRegistration where
  shapeFn : ShapeHandle → Option ShapeHandle

/-- `REGISTER_OP("OctreePad")` (`octree_pad_op.cc:18-24`). -/
def octreePadRegistration : OpRegistration :=
  ⟨pad_shape_fun⟩

/-- `REGISTER_OP("OctreeDepad")` (`octree_pad_op.cc:26-32`). -/
def octreeDepadRegistration : OpRegistration :=
  ⟨pad_shape_fun⟩

/-- The bijection invariant on a children index: every compact rank
`k < M` is taken by exactly one dense slot. -/
def BijectionInvariant (children : List Int) (M : Nat) : Prop :=
  ∀ k : Nat, k < M →
    (children.countP (fun t => decide (t = (k : Int)))) = 1

instance (children : List Int) (M : Nat) :
    Decidable (BijectionInvariant children M) :=
  Nat.decidableBallLT M
    (fun k _ => (children.countP (fun t => decide (t = (k : Int)))) = 1)

/-- A concrete topology for the spec's concrete scenario: depth 3 with
`N(3) = 5`, `M(3) = 2`, `children(3) = [-1, 0, -1, 1, -1]`. -/
def exampleTopology : OctreeTopology where
  node_num := fun d => if d = 3 then 5 else 0
  node_num_nempty := fun d => if d = 3 then 2 else 0
  children := fun d => if d = 3 then [-1, 0, -1, 1, -1] else []

/-! ### Helper lemmas -/

/-- Node-axis length of the pad output: always `top_h`. -/
theorem pad_forward_length {α : Type} [Zero α] (top_h channel : Nat)
    (btm : List (List α)) (children : List Int) :
    (pad_forward top_h channel btm children).length = top_h := by
  simp [pad_forward]

/-- Slot `i < top_h` of the pad output, as the scatter computes it. -/
theorem pad_forward_getD {α : Type} [Zero α] (top_h channel : Nat)
    (btm : List (List α)) (children : List Int) (i : Nat) (hi : i < top_h) :
    (pad_forward top_h channel btm children).getD i [] =
      (if children.getD i (-1) < 0 then List.replicate channel (0 : α)
       else btm.getD (children.getD i (-1)).toNat
              (List.replicate channel 0)) := by
  rw [List.getD_eq_getElem _ _ (by simpa [pad_forward_length] using hi)]
  simp [pad_forward, hi]

/-- Node-axis length of the depad output: always `btm_h`. -/
theorem pad_backward_length {α : Type} (btm_h : Nat)
    (top : List (List α)) (children : List Int) :
    (pad_backward btm_h top children).length = btm_h := by
  rw [pad_backward, List.length_map, List.length_range]

/-- Slot `k < btm_h` of the depad output, as the gather computes it. -/
theorem pad_backward_getD {α : Type} (btm_h : Nat)
    (top : List (List α)) (children : List Int) (k : Nat) (hk : k < btm_h) :
    (pad_backward btm_h top children).getD k [] =
      top.getD (children.findIdx (fun t => decide (t = (k : Int)))) [] := by
  rw [List.getD_eq_getElem _ _ (by simpa [pad_backward_length] using hk)]
  simp only [pad_backward, List.getElem_map, List.getElem_range]

/-- Two distinct positions satisfying a predicate force the matching
count to be at least two. -/
theorem two_le_countP {α : Type} (p : α → Bool) (l : List α) :
    ∀ (i j : Nat) (hi : i < l.length) (hj : j < l.length),
      i < j → p l[i] → p l[j] → 2 ≤ l.countP p := by
  induction l with
  | nil => intro i j hi _ _ _ _; simp at hi
  | cons a t ih =>
    intro i j hi hj hij hpi hpj
    match j, hj with
    | j + 1, hj =>
      have hjt : j < t.length := by simpa using hj
      match i, hi with
      | 0, _ =>
        simp only [List.getElem_cons_zero] at hpi
        simp only [List.getElem_cons_succ] at hpj
        rw [List.countP_cons_of_pos p t hpi]
        have hmem : t[j] ∈ t := List.getElem_mem hjt
        have hpos : 0 < t.countP p := List.countP_pos_iff.mpr ⟨t[j], hmem, hpj⟩
        omega
      | i + 1, hi =>
        have hit : i < t.length := by simpa using hi
        simp only [List.getElem_cons_succ] at hpi hpj
        have h2 := ih i j hit hjt (by omega) hpi hpj
        rw [List.countP_cons]
        omega

/-- When exactly one element satisfies `p`, `findIdx` returns the
position of any element known to satisfy `p`. -/
theorem findIdx_eq_of_countP_eq_one {α : Type} (p : α → Bool) (l : List α)
    (h1 : l.countP p = 1) (i : Nat) (hi : i < l.length) (hpi : p l[i]) :
    l.findIdx p = i := by
  have hex : ∃ x ∈ l, p x := ⟨l[i], List.getElem_mem hi, hpi⟩
  have hlt : l.findIdx p < l.length := List.findIdx_lt_length_of_exists hex
  have hpf : p (l[l.findIdx p]) := List.findIdx_getElem
  rcases Nat.lt_trichotomy (l.findIdx p) i with h | h | h
  · have := two_le_countP p l _ _ hlt hi h hpf hpi
    omega
  · exact h
  · have := two_le_countP p l _ _ hi hlt h hpi hpf
    omega

/-- A positive match count yields a position where the predicate holds. -/
theorem exists_getElem_of_countP_pos {α : Type} (p : α → Bool) (l : List α)
    (h : 0 < l.countP p) : ∃ i : Nat, ∃ hi : i < l.length, p l[i] := by
  obtain ⟨x, hx, hpx⟩ := List.countP_pos_iff.mp h
  obtain ⟨i, hi, rfl⟩ := List.mem_iff_getElem.mp hx
  exact ⟨i, hi, hpx⟩

/-! ### Claim theorems -/

/-- Claim C1, pad postcondition: for a compact input of node-axis
length `M` with channel count `C` and a children index of length `N`,
the pad output has node-axis length `N`, every dense slot whose
children entry is the sentinel is all zeros across the `C` channels,
and every other dense slot equals the compact input slot named by its
children entry, channel-for-channel. -/
theorem pad_postcondition {α : Type} [Zero α] (M N C : Nat)
    (btm : List (List α)) (children : List Int)
    (hbtm : btm.length = M) (hch : children.length = N)
    (hvalid : ∀ t ∈ children, 0 ≤ t → t.toNat < M) :
    (pad_forward N C btm children).length = N ∧
    ∀ i, i < N →
      (children.getD i (-1) < 0 →
         (pad_forward N C btm children).getD i [] =
           List.replicate C (0 : α)) ∧
      (0 ≤ children.getD i (-1) →
         (pad_forward N C btm children).getD i [] =
           btm.getD (children.getD i (-1)).toNat []) := by
  refine ⟨pad_forward_length N C btm children, fun i hi => ?_⟩
  rw [pad_forward_getD N C btm children i hi]
  constructor
  · intro hneg
    rw [if_pos hneg]
  · intro hpos
    rw [if_neg (by omega)]
    have hmem : children.getD i (-1) ∈ children := by
      rw [List.getD_eq_getElem _ _ (by omega)]
      exact List.getElem_mem (by omega)
    have hrange : (children.getD i (-1)).toNat < M := hvalid _ hmem hpos
    rw [List.getD_eq_getElem _ _ (by omega)]
    exact (List.getD_eq_getElem btm [] (by omega)).symm

/-- Witness for C1 at the spec's concrete scenario:
`children = [-1, 0, -1, 1, -1]`, `C = 2`, compact input
`[[1, 2], [3, 4]]`. -/
theorem pad_postcondition_witness :
    (([[1, 2], [3, 4]] : List (List Int)).length = 2 ∧
     ([-1, 0, -1, 1, -1] : List Int).length = 5 ∧
     ∀ t ∈ ([-1, 0, -1, 1, -1] : List Int), 0 ≤ t → t.toNat < 2) ∧
    ((pad_forward 5 2 [[1, 2], [3, 4]] [-1, 0, -1, 1, -1]).length = 5 ∧
     ∀ i, i < 5 →
       ((([-1, 0, -1, 1, -1] : List Int).getD i (-1) < 0 →
           (pad_forward 5 2 ([[1, 2], [3, 4]] : List (List Int))
               [-1, 0, -1, 1, -1]).getD i [] =
             List.replicate 2 (0 : Int)) ∧
        (0 ≤ ([-1, 0, -1, 1, -1] : List Int).getD i (-1) →
           (pad_forward 5 2 ([[1, 2], [3, 4]] : List (List Int))
               [-1, 0, -1, 1, -1]).getD i [] =
             ([[1, 2], [3, 4]] : List (List Int)).getD
               (([-1, 0, -1, 1, -1] : List Int).getD i (-1)).toNat []))) :=
  ⟨⟨by decide, by decide, by decide⟩,
   pad_postcondition (α := Int) 2 5 2 [[1, 2], [3, 4]] [-1, 0, -1, 1, -1]
     (by decide) (by decide) (by decide)⟩

/-- Claim C2, depad postcondition: for a dense input and a children
index in which every compact rank `k < M` is taken by exactly one
entry, the depad output has node-axis length `M` and every compact
slot `k` equals the feature vector of the unique dense slot `i` with
`children[i] = k`. -/
theorem depad_postcondition {α : Type} (M : Nat)
    (top : List (List α)) (children : List Int)
    (hbij : BijectionInvariant children M) :
    (pad_backward M top children).length = M ∧
    ∀ k, k < M → ∀ i, ∀ hi : i < children.length,
      children[i] = (k : Int) →
      (pad_backward M top children).getD k [] = top.getD i [] := by
  refine ⟨pad_backward_length M top children, fun k hk i hi hik => ?_⟩
  rw [pad_backward_getD M top children k hk,
    findIdx_eq_of_countP_eq_one _ children (hbij k hk) i hi
      (decide_eq_true hik)]

/-- Witness for C2 at the spec's concrete scenario: the dense tensor
produced by pad, `children = [-1, 0, -1, 1, -1]`, `M = 2`. -/
theorem depad_postcondition_witness :
    BijectionInvariant [-1, 0, -1, 1, -1] 2 ∧
    ((pad_backward 2 ([[0, 0], [1, 2], [0, 0], [3, 4], [0, 0]] :
        List (List Int)) [-1, 0, -1, 1, -1]).length = 2 ∧
     ∀ k : Nat, k < 2 → ∀ i, ∀ hi : i < ([-1, 0, -1, 1, -1] : List Int).length,
       ([-1, 0, -1, 1, -1] : List Int)[i] = (k : Int) →
       (pad_backward 2 ([[0, 0], [1, 2], [0, 0], [3, 4], [0, 0]] :
           List (List Int)) [-1, 0, -1, 1, -1]).getD k [] =
         ([[0, 0], [1, 2], [0, 0], [3, 4], [0, 0]] :
           List (List Int)).getD i []) :=
  ⟨by decide,
   depad_postcondition (α := Int) 2 [[0, 0], [1, 2], [0, 0], [3, 4], [0, 0]]
     [-1, 0, -1, 1, -1] (by decide)⟩

/-- Claim C3, round-trip identity: for a topology whose children index
at `depth` has length `node_num depth` and satisfies the bijection
invariant for `node_num_nempty depth`, and a compact tensor of matching
node-axis length, the pad call succeeds and the depad call on its
output returns the original compact tensor, channel-for-channel. -/
theorem pad_depad_roundtrip {α : Type} [Zero α]
    (octree : OctreeTopology) (depth : Int) (btm : FeatureTensor α)
    (hM : btm.height = octree.node_num_nempty depth)
    (hN : (octree.children depth).length = octree.node_num depth)
    (hbij : BijectionInvariant (octree.children depth)
      (octree.node_num_nempty depth)) :
    ∃ top : FeatureTensor α,
      OctreePadOp_compute octree depth btm = .ok top ∧
      OctreeDepadOp_compute octree depth top = .ok btm := by
  refine ⟨⟨btm.channel, pad_forward (octree.node_num depth) btm.channel
    btm.slots (octree.children depth)⟩, ?_, ?_⟩
  · rw [OctreePadOp_compute, if_pos hM.symm]
  · rw [OctreeDepadOp_compute]
    have hh : (FeatureTensor.mk btm.channel (pad_forward
        (octree.node_num depth) btm.channel btm.slots
        (octree.children depth))).height = octree.node_num depth :=
      pad_forward_length _ _ _ _
    rw [if_pos hh.symm]
    have hslots : pad_backward (octree.node_num_nempty depth)
        (pad_forward (octree.node_num depth) btm.channel btm.slots
          (octree.children depth)) (octree.children depth) = btm.slots := by
      apply List.ext_getElem
      · rw [pad_backward_length]
        exact hM.symm
      · intro k hk1 hk2
        have hkM : k < octree.node_num_nempty depth := by
          rwa [pad_backward_length] at hk1
        have hcount := hbij k hkM
        obtain ⟨i, hiL, hpi⟩ :=
          exists_getElem_of_countP_pos (fun t => decide (t = (k : Int)))
            (octree.children depth) (by rw [hcount]; omega)
        have hik : (octree.children depth)[i] = (k : Int) :=
          of_decide_eq_true hpi
        have hgetDi : (octree.children depth).getD i (-1) = (k : Int) := by
          rw [List.getD_eq_getElem _ _ hiL, hik]
        calc (pad_backward (octree.node_num_nempty depth)
                (pad_forward (octree.node_num depth) btm.channel btm.slots
                  (octree.children depth)) (octree.children depth))[k]
            = (pad_backward (octree.node_num_nempty depth)
                (pad_forward (octree.node_num depth) btm.channel btm.slots
                  (octree.children depth)) (octree.children depth)).getD
                k [] := (List.getD_eq_getElem _ [] hk1).symm
          _ = (pad_forward (octree.node_num depth) btm.channel btm.slots
                (octree.children depth)).getD
                ((octree.children depth).findIdx
                  (fun t => decide (t = (k : Int)))) [] :=
              pad_backward_getD _ _ _ k hkM
          _ = (pad_forward (octree.node_num depth) btm.channel btm.slots
                (octree.children depth)).getD i [] := by
              rw [findIdx_eq_of_countP_eq_one _ _ hcount i hiL hpi]
          _ = btm.slots.getD k (List.replicate btm.channel 0) := by
              rw [pad_forward_getD _ _ _ _ i (hN ▸ hiL), hgetDi,
                if_neg (show ¬ (k : Int) < 0 by omega), Int.toNat_natCast]
          _ = btm.slots[k] :=
              List.getD_eq_getElem btm.slots _ (by simpa using hk2)
    show Except.ok (FeatureTensor.mk btm.channel
        (pad_backward (octree.node_num_nempty depth)
          (pad_forward (octree.node_num depth) btm.channel btm.slots
            (octree.children depth)) (octree.children depth))) =
      Except.ok btm
    rw [hslots]

/-- Witness for C3 at the spec's concrete scenario: `depth = 3`,
`N(3) = 5`, `M(3) = 2`, `children = [-1, 0, -1, 1, -1]`, `C = 2`,
compact input `[[1, 2], [3, 4]]`; the pad output is pinned to
`[[0, 0], [1, 2], [0, 0], [3, 4], [0, 0]]` and depad of that output
returns `[[1, 2], [3, 4]]`. -/
theorem pad_depad_roundtrip_witness :
    ((FeatureTensor.mk 2 ([[1, 2], [3, 4]] : List (List Int))).height =
       exampleTopology.node_num_nempty 3 ∧
     (exampleTopology.children 3).length = exampleTopology.node_num 3 ∧
     BijectionInvariant (exampleTopology.children 3)
       (exampleTopology.node_num_nempty 3)) ∧
    (OctreePadOp_compute exampleTopology 3
        (FeatureTensor.mk 2 ([[1, 2], [3, 4]] : List (List Int))) =
       .ok ⟨2, [[0, 0], [1, 2], [0, 0], [3, 4], [0, 0]]⟩ ∧
     OctreeDepadOp_compute exampleTopology 3
        (FeatureTensor.mk 2
          ([[0, 0], [1, 2], [0, 0], [3, 4], [0, 0]] : List (List Int))) =
       .ok ⟨2, [[1, 2], [3, 4]]⟩) ∧
    (∃ top : FeatureTensor Int,
      OctreePadOp_compute exampleTopology 3
          (FeatureTensor.mk 2 ([[1, 2], [3, 4]] : List (List Int))) =
        .ok top ∧
      OctreeDepadOp_compute exampleTopology 3 top =
        .ok (FeatureTensor.mk 2 ([[1, 2], [3, 4]] : List (List Int)))) :=
  ⟨⟨by decide, by decide, by decide⟩, ⟨by rfl, by rfl⟩,
   pad_depad_roundtrip exampleTopology 3
     (FeatureTensor.mk 2 ([[1, 2], [3, 4]] : List (List Int)))
     (by decide) (by decide) (by decide)⟩

/-- Claim C4, pad shape validation: the pad call fails with
`ShapeMismatch` (producing no output) when the input node-axis length
differs from `node_num_nempty depth`, and otherwise succeeds with an
output of node-axis length `node_num depth`. -/
theorem pad_shape_validation {α : Type} [Zero α]
    (octree : OctreeTopology) (depth : Int) (btm : FeatureTensor α) :
    (btm.height ≠ octree.node_num_nempty depth →
       OctreePadOp_compute octree depth btm = .error .ShapeMismatch) ∧
    (btm.height = octree.node_num_nempty depth →
       ∃ out : FeatureTensor α,
         OctreePadOp_compute octree depth btm = .ok out ∧
         out.height = octree.node_num depth) := by
  constructor
  · intro hne
    rw [OctreePadOp_compute, if_neg (fun h => hne h.symm)]
  · intro heq
    refine ⟨⟨btm.channel, pad_forward (octree.node_num depth) btm.channel
      btm.slots (octree.children depth)⟩, ?_, ?_⟩
    · rw [OctreePadOp_compute, if_pos heq.symm]
    · exact pad_forward_length _ _ _ _

/-- Witness for C4: against `M(3) = 2` of the example topology, a
length-3 compact input fails with `ShapeMismatch` and a length-2
compact input succeeds with a length-5 output. -/
theorem pad_shape_validation_witness :
    OctreePadOp_compute exampleTopology 3
        (FeatureTensor.mk 2 ([[1, 2], [3, 4], [5, 6]] : List (List Int))) =
      .error .ShapeMismatch ∧
    ∃ out : FeatureTensor Int,
      OctreePadOp_compute exampleTopology 3
          (FeatureTensor.mk 2 ([[1, 2], [3, 4]] : List (List Int))) =
        .ok out ∧ out.height = 5 :=
  ⟨(pad_shape_validation exampleTopology 3
      (FeatureTensor.mk 2 ([[1, 2], [3, 4], [5, 6]] : List (List Int)))).1
      (by decide),
   (pad_shape_validation exampleTopology 3
      (FeatureTensor.mk 2 ([[1, 2], [3, 4]] : List (List Int)))).2
      (by decide)⟩

/-- Claim C5, depad shape validation: the depad call fails with
`ShapeMismatch` (producing no output, partial or otherwise) when the
input node-axis length differs from `node_num depth`, and otherwise
succeeds with an output of node-axis length `node_num_nempty depth`. -/
theorem depad_shape_validation {α : Type}
    (octree : OctreeTopology) (depth : Int) (top : FeatureTensor α) :
    (top.height ≠ octree.node_num depth →
       OctreeDepadOp_compute octree depth top = .error .ShapeMismatch) ∧
    (top.height = octree.node_num depth →
       ∃ out : FeatureTensor α,
         OctreeDepadOp_compute octree depth top = .ok out ∧
         out.height = octree.node_num_nempty depth) := by
  constructor
  · intro hne
    rw [OctreeDepadOp_compute, if_neg (fun h => hne h.symm)]
  · intro heq
    refine ⟨⟨top.channel, pad_backward (octree.node_num_nempty depth)
      top.slots (octree.children depth)⟩, ?_, ?_⟩
    · rw [OctreeDepadOp_compute, if_pos heq.symm]
    · exact pad_backward_length _ _ _

/-- Witness for C5: against `N(3) = 5` of the example topology, a
length-3 dense input fails with `ShapeMismatch` and a length-5 dense
input succeeds with a length-2 output. -/
theorem depad_shape_validation_witness :
    OctreeDepadOp_compute exampleTopology 3
        (FeatureTensor.mk 2 ([[1, 2], [3, 4], [5, 6]] : List (List Int))) =
      .error .ShapeMismatch ∧
    ∃ out : FeatureTensor Int,
      OctreeDepadOp_compute exampleTopology 3
          (FeatureTensor.mk 2
            ([[0, 0], [1, 2], [0, 0], [3, 4], [0, 0]] : List (List Int))) =
        .ok out ∧ out.height = 2 :=
  ⟨(depad_shape_validation exampleTopology 3
      (FeatureTensor.mk 2 ([[1, 2], [3, 4], [5, 6]] : List (List Int)))).1
      (by decide),
   (depad_shape_validation exampleTopology 3
      (FeatureTensor.mk 2
        ([[0, 0], [1, 2], [0, 0], [3, 4], [0, 0]] : List (List Int)))).2
      (by decide)⟩

/-- Claim C6, construction-time depth validation: constructing the
operator with `depth < 1` is rejected with `ConfigError` before any
call can run, constructing with `depth ≥ 1` succeeds, and no `Compute`
call ever reports a `ConfigError` — depth-attribute validation is a
construction-time concern, not a per-call one.  (The constructor
enforces only the lower bound; no finite upper bound is checked.) -/
theorem depth_attribute_validation {α : Type} [Zero α] :
    (∀ depth : Int, depth < 1 →
       OctreePadBase.construct depth = .error .ConfigError) ∧
    (∀ depth : Int, 1 ≤ depth →
       OctreePadBase.construct depth = .ok ⟨depth⟩) ∧
    (∀ (octree : OctreeTopology) (depth : Int) (x : FeatureTensor α),
       OctreePadOp_compute octree depth x ≠ .error .ConfigError ∧
       OctreeDepadOp_compute octree depth x ≠ .error .ConfigError) := by
  refine ⟨fun depth h => ?_, fun depth h => ?_,
    fun octree depth x => ⟨?_, ?_⟩⟩
  · rw [OctreePadBase.construct, if_neg (by omega)]
  · rw [OctreePadBase.construct, if_pos h]
  · intro hcon
    by_cases hc : octree.node_num_nempty depth = x.height <;>
      simp [OctreePadOp_compute, hc] at hcon
  · intro hcon
    by_cases hc : octree.node_num depth = x.height <;>
      simp [OctreeDepadOp_compute, hc] at hcon

/-- Witness for C6: depth 0 is rejected at construction, depth 5 is
accepted, and a concrete pad call fails with `ShapeMismatch`, never
`ConfigError`. -/
theorem depth_attribute_validation_witness :
    OctreePadBase.construct 0 = .error .ConfigError ∧
    OctreePadBase.construct 5 = .ok ⟨5⟩ ∧
    OctreePadOp_compute exampleTopology 3
        (FeatureTensor.mk 2 ([[1, 2], [3, 4], [5, 6]] : List (List Int))) ≠
      .error .ConfigError :=
  ⟨(depth_attribute_validation (α := Int)).1 0 (by decide),
   (depth_attribute_validation (α := Int)).2.1 5 (by decide),
   ((depth_attribute_validation (α := Int)).2.2 exampleTopology 3
      (FeatureTensor.mk 2 ([[1, 2], [3, 4], [5, 6]] : List (List Int)))).1⟩

/-- A concrete fully-empty depth level: `N = 3`, `M = 0`, all children
entries are the sentinel. -/
def emptyLevelTopology : OctreeTopology where
  node_num := fun _ => 3
  node_num_nempty := fun _ => 0
  children := fun _ => [-1, -1, -1]

/-- Claim C7, empty-level boundary: when `node_num_nempty depth = 0`,
pad of the length-0 compact input yields the all-zero dense tensor of
node-axis length `node_num depth`, and depad of any dense tensor of
matching length (children entries all sentinel) yields a length-0
compact tensor. -/
theorem empty_level_boundary {α : Type} [Zero α]
    (octree : OctreeTopology) (depth : Int)
    (hM : octree.node_num_nempty depth = 0)
    (hN : (octree.children depth).length = octree.node_num depth)
    (hall : ∀ t ∈ octree.children depth, t < 0) :
    (∀ C : Nat, OctreePadOp_compute octree depth
        (FeatureTensor.mk C ([] : List (List α))) =
      .ok ⟨C, List.replicate (octree.node_num depth)
        (List.replicate C 0)⟩) ∧
    (∀ top : FeatureTensor α, top.height = octree.node_num depth →
       OctreeDepadOp_compute octree depth top = .ok ⟨top.channel, []⟩) := by
  constructor
  · intro C
    rw [OctreePadOp_compute,
      if_pos (show octree.node_num_nempty depth =
        (FeatureTensor.mk C ([] : List (List α))).height from hM)]
    have hpf : pad_forward (octree.node_num depth) C ([] : List (List α))
        (octree.children depth) =
        List.replicate (octree.node_num depth) (List.replicate C 0) := by
      apply List.ext_getElem
      · rw [pad_forward_length, List.length_replicate]
      · intro i h1 h2
        have hiN : i < octree.node_num depth := by
          rwa [pad_forward_length] at h1
        rw [List.getElem_replicate, ← List.getD_eq_getElem _ [] h1,
          pad_forward_getD _ _ _ _ i hiN]
        split
        · rfl
        · rw [List.getD_nil]
    show Except.ok (FeatureTensor.mk C (pad_forward (octree.node_num depth) C
        ([] : List (List α)) (octree.children depth))) =
      Except.ok (FeatureTensor.mk C (List.replicate (octree.node_num depth)
        (List.replicate C 0)))
    rw [hpf]
  · intro top htop
    rw [OctreeDepadOp_compute, if_pos htop.symm, hM]
    rfl

/-- Witness for C7 on a concrete fully-empty level (`N = 3`, `M = 0`,
children `[-1, -1, -1]`) with channel count 2. -/
theorem empty_level_boundary_witness :
    (emptyLevelTopology.node_num_nempty 1 = 0 ∧
     (emptyLevelTopology.children 1).length = emptyLevelTopology.node_num 1 ∧
     ∀ t ∈ emptyLevelTopology.children 1, t < 0) ∧
    OctreePadOp_compute emptyLevelTopology 1
        (FeatureTensor.mk 2 ([] : List (List Int))) =
      .ok ⟨2, List.replicate (emptyLevelTopology.node_num 1)
        (List.replicate 2 0)⟩ ∧
    OctreeDepadOp_compute emptyLevelTopology 1
        (FeatureTensor.mk 2 ([[7, 8], [9, 10], [11, 12]] : List (List Int))) =
      .ok ⟨2, []⟩ :=
  ⟨⟨by decide, by decide, by decide⟩,
   (empty_level_boundary (α := Int) emptyLevelTopology 1
      (by decide) (by decide) (by decide)).1 2,
   (empty_level_boundary (α := Int) emptyLevelTopology 1
      (by decide) (by decide) (by decide)).2
      (FeatureTensor.mk 2 ([[7, 8], [9, 10], [11, 12]] : List (List Int)))
      (by decide)⟩

/-- Claim C8, channel invariance: whenever a pad or depad call
succeeds, the output tensor's channel-axis length equals the input
tensor's channel-axis length. -/
theorem channel_invariance {α : Type} [Zero α]
    (octree : OctreeTopology) (depth : Int) (x out : FeatureTensor α) :
    (OctreePadOp_compute octree depth x = .ok out →
       out.channel = x.channel) ∧
    (OctreeDepadOp_compute octree depth x = .ok out →
       out.channel = x.channel) := by
  obtain ⟨oc, os⟩ := out
  constructor
  · intro h
    by_cases hc : octree.node_num_nempty depth = x.height
    · rw [OctreePadOp_compute] at h
      rw [if_pos hc] at h
      injection h with h1
      injection h1 with h2 h3
      exact h2.symm
    · rw [OctreePadOp_compute] at h
      rw [if_neg hc] at h
      exact Except.noConfusion h
  · intro h
    by_cases hc : octree.node_num depth = x.height
    · rw [OctreeDepadOp_compute] at h
      rw [if_pos hc] at h
      injection h with h1
      injection h1 with h2 h3
      exact h2.symm
    · rw [OctreeDepadOp_compute] at h
      rw [if_neg hc] at h
      exact Except.noConfusion h

/-- Witness for C8 at the concrete scenario: both directions preserve
the channel count 2. -/
theorem channel_invariance_witness :
    (FeatureTensor.mk 2
      ([[0, 0], [1, 2], [0, 0], [3, 4], [0, 0]] :
        List (List Int))).channel =
      (FeatureTensor.mk 2 ([[1, 2], [3, 4]] : List (List Int))).channel ∧
    (FeatureTensor.mk 2 ([[1, 2], [3, 4]] : List (List Int))).channel =
      (FeatureTensor.mk 2
        ([[0, 0], [1, 2], [0, 0], [3, 4], [0, 0]] :
          List (List Int))).channel :=
  ⟨(channel_invariance exampleTopology 3
      (FeatureTensor.mk 2 ([[1, 2], [3, 4]] : List (List Int)))
      (FeatureTensor.mk 2
        ([[0, 0], [1, 2], [0, 0], [3, 4], [0, 0]] :
          List (List Int)))).1 (by rfl),
   (channel_invariance exampleTopology 3
      (FeatureTensor.mk 2
        ([[0, 0], [1, 2], [0, 0], [3, 4], [0, 0]] : List (List Int)))
      (FeatureTensor.mk 2 ([[1, 2], [3, 4]] : List (List Int)))).2
      (by rfl)⟩

/-- Claim C9, determinism: both transforms are pure functions of the
feature tensor, the topology counts at `depth`, the children index at
`depth`, and `depth` itself — equal inputs give equal results, on the
success path and on the failure path alike. -/
theorem transform_determinism {α : Type} [Zero α]
    (o1 o2 : OctreeTopology) (depth : Int) (x y : FeatureTensor α)
    (hxy : x = y)
    (hnn : o1.node_num depth = o2.node_num depth)
    (hne : o1.node_num_nempty depth = o2.node_num_nempty depth)
    (hch : o1.children depth = o2.children depth) :
    OctreePadOp_compute o1 depth x = OctreePadOp_compute o2 depth y ∧
    OctreeDepadOp_compute o1 depth x = OctreeDepadOp_compute o2 depth y := by
  subst hxy
  constructor
  · simp only [OctreePadOp_compute, hnn, hne, hch]
  · simp only [OctreeDepadOp_compute, hnn, hne, hch]

/-- Witness for C9: a repeated call on identical concrete inputs
(including identical invalid inputs, length 3 against `M(3) = 2`)
produces identical results. -/
theorem transform_determinism_witness :
    OctreePadOp_compute exampleTopology 3
        (FeatureTensor.mk 2 ([[1, 2], [3, 4], [5, 6]] : List (List Int))) =
      OctreePadOp_compute exampleTopology 3
        (FeatureTensor.mk 2 ([[1, 2], [3, 4], [5, 6]] : List (List Int))) ∧
    OctreeDepadOp_compute exampleTopology 3
        (FeatureTensor.mk 2 ([[1, 2], [3, 4], [5, 6]] : List (List Int))) =
      OctreeDepadOp_compute exampleTopology 3
        (FeatureTensor.mk 2 ([[1, 2], [3, 4], [5, 6]] : List (List Int))) :=
  transform_determinism exampleTopology exampleTopology 3
    (FeatureTensor.mk 2 ([[1, 2], [3, 4], [5, 6]] : List (List Int)))
    (FeatureTensor.mk 2 ([[1, 2], [3, 4], [5, 6]] : List (List Int)))
    rfl rfl rfl rfl

/-- Claim C10, shared static shape inference: `OctreePad` and
`OctreeDepad` register the same shape-inference function, and on a
shape of rank above 2 that function returns the input shape with
dimension 2 replaced by an unknown dimension and every other dimension
unchanged. -/
theorem shared_shape_inference :
    octreePadRegistration.shapeFn = octreeDepadRegistration.shapeFn ∧
    ∀ s : ShapeHandle, 2 < s.length →
      pad_shape_fun s = some (s.set 2 none) ∧
      (s.set 2 none)[2]? = some none ∧
      ∀ i : Nat, i ≠ 2 → (s.set 2 none)[i]? = s[i]? := by
  refine ⟨rfl, fun s hs => ⟨?_, ?_, fun i hi => ?_⟩⟩
  · rw [pad_shape_fun, replaceDim, if_pos hs]
  · rw [List.getElem?_set_self (by omega)]
  · rw [List.getElem?_set_ne (by omega)]

/-- Witness for C10 at the rank-3 shape `[some 1, some 4, some 7]`
(batch 1, channel 4, node 7). -/
theorem shared_shape_inference_witness :
    2 < ([some 1, some 4, some 7] : ShapeHandle).length ∧
    (pad_shape_fun [some 1, some 4, some 7] =
       some (([some 1, some 4, some 7] : ShapeHandle).set 2 none) ∧
     (([some 1, some 4, some 7] : ShapeHandle).set 2 none)[2]? =
       some none ∧
     ∀ i : Nat, i ≠ 2 →
       (([some 1, some 4, some 7] : ShapeHandle).set 2 none)[i]? =
         ([some 1, some 4, some 7] : ShapeHandle)[i]?) :=
  ⟨by decide, shared_shape_inference.2 [some 1, some 4, some 7] (by decide)⟩

end OCNN
